import Mathlib

/-!
# RendererServices (src/liboslexec/rendservices.cpp)

A shallow embedding of the texture-access facade of the shading engine.

The facade owns almost no data: one process-wide pointer to the texture engine
(`texturesys_`) and a set of member functions that forward to collaborators that
live outside this file (the OpenImageIO texture system, the shading context, the
renderer's own `get_matrix`, the matrix library).  The collaborators are taken as
parameters: each one is a function on an abstract state `σ` of the outside world,
so that their answers may depend on everything that happened before.  Every call
the facade makes to a collaborator is also appended to a trace, which is what the
statements about "how many times" and "never fetched" are phrased over.

Pointers that the C++ code tests against NULL are `Option` values, `none` being
NULL.  Dereferencing a NULL pointer is the fault `Fault.nullDeref`.
-/

namespace OSL

/-! ## Data model -/

/-- Identity of a `TextureSystem` instance (the value of a non-null pointer). -/
abbrev TextureSystemPtr := Nat

/-- Identity of a `ShadingContext` (the value of a non-null pointer). -/
abbrev ShadingContextPtr := Nat

/-- The value of a `TextureHandle *`; the facade only passes it on. -/
abbrev TextureHandle := Nat

/-- The value of a non-null `TexturePerthread *`. -/
abbrev TexturePerthread := Nat

/-- The value of a `TransformationPtr` (a `const void *`); only passed on. -/
abbrev TransformationPtr := Nat

/-- An interned string of the C++ code. -/
abbrev ustring := String

/-- The one field of `ShaderGlobals` this file reads: the back-reference to the
shading context that is executing the shader.  The shading system fills it in
before any shader runs, so it is a valid reference here. -/
structure ShaderGlobals where
  context : ShadingContextPtr
  deriving DecidableEq, Repr

/-- The eight lookups that are forwarded to the texture engine. -/
inductive Lookup where
  | texture
  | texture_handle
  | texture3d
  | texture3d_handle
  | environment
  | environment_handle
  | get_texture_info
  | get_texture_info_handle
  deriving DecidableEq, Repr

/-- One call made by the facade to a collaborator, with the values that went in
and came out as far as the facade looks at them. -/
inductive Event where
  /-- The call `TextureSystem::create (shared)`, which returned `ts`. -/
  | create (shared : Bool) (ts : TextureSystemPtr)
  /-- The call `ts->attribute (name, value)`. -/
  | attr (ts : TextureSystemPtr) (name : String) (value : Int)
  /-- The call `ts->get_perthread_info ()`. -/
  | get_perthread_info (ts : TextureSystemPtr)
  /-- A lookup forwarded to `ts`, and the status it returned. -/
  | lookup (op : Lookup) (ts : TextureSystemPtr) (status : Bool)
  /-- The call `ts->geterror ()`, which returned `err`. -/
  | geterror (ts : TextureSystemPtr) (err : String)
  /-- The call `context->texture_thread_info ()`. -/
  | texture_thread_info (context : ShadingContextPtr)
  /-- The call `context->error (fmt, arg)`. -/
  | error (context : ShadingContextPtr) (fmt : String) (arg : String)
  /-- A forward `get_matrix` of the renderer, and the status it returned. -/
  | get_matrix (ok : Bool)
  /-- The call `result.invert ()`. -/
  | invert
  deriving DecidableEq, Repr

/-- The state of the process as far as this file can see it: the static pointer
`texturesys_` (`none` is NULL), the state of everything outside the file, and the
trace of the calls made so far. -/
structure World (σ : Type) where
  texturesys_ : Option TextureSystemPtr
  ext : σ
  trace : List Event

/-- The process right after start-up: `static TextureSystem *texturesys_ = NULL`. -/
def World.start {σ : Type} (s : σ) : World σ :=
  { texturesys_ := none, ext := s, trace := [] }

/-- Dereferencing a NULL pointer. -/
inductive Fault where
  | nullDeref
  deriving DecidableEq, Repr

/-- The collaborators of the texture part of the facade.  `A` stands for the
arguments that are handed through untouched (texture options, coordinates,
derivatives, channel count, output buffers; for `get_texture_info` the data type
and the output buffer). -/
structure Env (σ A : Type) where
  /-- The call `TextureSystem::create (shared)`: the new (or shared) engine.  It
  allocates the engine, so what it returns is a valid pointer, never NULL. -/
  create : Bool → σ → TextureSystemPtr × σ
  /-- The call `ts->attribute (name, value)`. -/
  attr : TextureSystemPtr → String → Int → σ → σ
  /-- The call `ts->get_perthread_info ()`. -/
  get_perthread_info : TextureSystemPtr → σ → Option TexturePerthread × σ
  /-- The call `ts->texture (filename, options, ...)`. -/
  texture : TextureSystemPtr → ustring → A → σ → Bool × σ
  /-- The call `ts->texture (texture_handle, texture_thread_info, options, ...)`. -/
  texture_handle :
    TextureSystemPtr → TextureHandle → Option TexturePerthread → A → σ → Bool × σ
  /-- The call `ts->texture3d (filename, options, ...)`. -/
  texture3d : TextureSystemPtr → ustring → A → σ → Bool × σ
  /-- The call `ts->texture3d (texture_handle, texture_thread_info, options, ...)`. -/
  texture3d_handle :
    TextureSystemPtr → TextureHandle → Option TexturePerthread → A → σ → Bool × σ
  /-- The call `ts->environment (filename, options, ...)`. -/
  environment : TextureSystemPtr → ustring → A → σ → Bool × σ
  /-- The call `ts->environment (texture_handle, texture_thread_info, options, ...)`. -/
  environment_handle :
    TextureSystemPtr → TextureHandle → Option TexturePerthread → A → σ → Bool × σ
  /-- The call `ts->get_texture_info (filename, subimage, dataname, datatype, data)`. -/
  get_texture_info : TextureSystemPtr → ustring → Int → ustring → A → σ → Bool × σ
  /-- The call `ts->get_texture_info (texture_handle, subimage, dataname, datatype, data)`. -/
  get_texture_info_handle :
    TextureSystemPtr → TextureHandle → Int → ustring → A → σ → Bool × σ
  /-- The call `ts->geterror ()`: the pending error text. -/
  geterror : TextureSystemPtr → σ → String × σ
  /-- The call `context->texture_thread_info ()`: the scratch cached in the context. -/
  texture_thread_info : ShadingContextPtr → σ → Option TexturePerthread × σ

/-! ## The process-wide engine -/

/-- The constructor `RendererServices::RendererServices (TextureSystem *texsys)`.
The spin lock makes the body one atomic step. -/
def RendererServices {σ A : Type} (x : Env σ A) (texsys : Option TextureSystemPtr)
    (w : World σ) : World σ :=
  match w.texturesys_ with
  | some _ => w
  | none =>
    match texsys with
    | some ts => { w with texturesys_ := some ts }
    | none =>
      let c := x.create true w.ext
      let ts := c.1
      let s1 := x.attr ts "automip" 1 c.2
      let s2 := x.attr ts "autotile" 64 s1
      { texturesys_ := some ts
        ext := s2
        trace := w.trace ++ [Event.create true ts, Event.attr ts "automip" 1,
                             Event.attr ts "autotile" 64] }

/-- The accessor `RendererServices::texturesys ()`. -/
def texturesys {σ : Type} (w : World σ) : Option TextureSystemPtr :=
  w.texturesys_

/-- A sequence of constructions, one after the other, each with the engine it
was handed (`none` for NULL). -/
def constructions {σ A : Type} (x : Env σ A) :
    List (Option TextureSystemPtr) → World σ → World σ
  | [], w => w
  | texsys :: rest, w => constructions x rest (RendererServices x texsys w)

/-- The events appended to the trace between `w` and a later world `w2`. -/
def added {σ : Type} (w w2 : World σ) : List Event :=
  w2.trace.drop w.trace.length

/-- The `attribute` calls among some events, as (engine, name, value). -/
def attributes : List Event → List (TextureSystemPtr × String × Int)
  | [] => []
  | Event.attr ts name value :: rest => (ts, name, value) :: attributes rest
  | _ :: rest => attributes rest

/-- The `geterror` calls among some events. -/
def fetches : List Event → Nat
  | [] => 0
  | Event.geterror _ _ :: rest => fetches rest + 1
  | _ :: rest => fetches rest

/-- The `get_perthread_info` calls among some events. -/
def perthread_requests : List Event → Nat
  | [] => 0
  | Event.get_perthread_info _ :: rest => perthread_requests rest + 1
  | _ :: rest => perthread_requests rest

/-- The `invert` calls among some events. -/
def inversions : List Event → Nat
  | [] => 0
  | Event.invert :: rest => inversions rest + 1
  | _ :: rest => inversions rest

/-! ## Diagnostics -/

/-- One call of `ShadingContext::error`: the context it went to, the format
string and the one argument. -/
structure Diagnostic where
  context : ShadingContextPtr
  fmt : String
  arg : String
  deriving DecidableEq, Repr

/-- The `context->error` calls among some events, in order. -/
def relayed : List Event → List Diagnostic
  | [] => []
  | Event.error c fmt arg :: rest => ⟨c, fmt, arg⟩ :: relayed rest
  | _ :: rest => relayed rest

/-- Replace the first `%s` of a format by the argument. -/
def substitute : List Char → List Char → List Char
  | [], _ => []
  | '%' :: 's' :: rest, arg => arg ++ rest
  | c :: rest, arg => c :: substitute rest arg

/-- Modelled from the spec: the formatting done by `ShadingContext::error`, which
is declared in oslexec_pvt.h and not part of this file.  The spec has the engine's
error string relayed "tagged with the call-site name", "the call-site tag followed
by the engine's error string"; the call sites pass a printf-style format with one
`%s` and the error string, so the text is the format with `%s` replaced. -/
def Diagnostic.text (d : Diagnostic) : String :=
  ⟨substitute d.fmt.data d.arg.data⟩

/-- Whether `needle` occurs in `hay` as a contiguous piece. -/
def occursIn (needle hay : String) : Prop :=
  needle.data <:+: hay.data

instance (needle hay : String) : Decidable (occursIn needle hay) :=
  inferInstanceAs (Decidable (needle.data <:+: hay.data))

/-! ## Lookups -/

/-- The tail shared by every lookup:
```
if (!status) {
    std::string err = texturesys()->geterror();
    if (err.size() && sg) {
        sg->context->error (fmt, err);
    }
}
return status;
```
`ts` is the engine `texturesys()` points to. -/
def relay_failure {σ A : Type} (x : Env σ A) (ts : TextureSystemPtr) (fmt : String)
    (sg : Option ShaderGlobals) (status : Bool) (w : World σ) : Bool × World σ :=
  if !status then
    let e := x.geterror ts w.ext
    let err := e.1
    let w1 : World σ := { w with ext := e.2, trace := w.trace ++ [Event.geterror ts err] }
    match sg with
    | some g =>
      if err.length ≠ 0 then
        (status, { w1 with trace := w1.trace ++ [Event.error g.context fmt err] })
      else (status, w1)
    | none => (status, w1)
  else (status, w)

/-- The name-addressed `RendererServices::texture`. -/
def texture {σ A : Type} (x : Env σ A) (filename : ustring) (args : A)
    (sg : Option ShaderGlobals) (w : World σ) : Except Fault (Bool × World σ) :=
  match texturesys w with
  | none => .error .nullDeref
  | some ts =>
    let r := x.texture ts filename args w.ext
    let status := r.1
    let w1 : World σ :=
      { w with ext := r.2, trace := w.trace ++ [Event.lookup .texture ts status] }
    .ok (relay_failure x ts "[RendererServices::texture] %s" sg status w1)

/-- The first two statements of the handle-addressed lookups:
```
ShadingContext *context = sg->context;
if (! texture_thread_info)
    texture_thread_info = context->texture_thread_info();
```
`sg` is dereferenced before anything tests it. -/
def resolve_thread_info {σ A : Type} (x : Env σ A)
    (texture_thread_info : Option TexturePerthread) (sg : Option ShaderGlobals)
    (w : World σ) : Except Fault (Option TexturePerthread × World σ) :=
  match sg with
  | none => .error .nullDeref
  | some g =>
    let context := g.context
    match texture_thread_info with
    | some p => .ok (some p, w)
    | none =>
      let t := x.texture_thread_info context w.ext
      .ok (t.1, { w with ext := t.2,
                         trace := w.trace ++ [Event.texture_thread_info context] })

/-- The handle-addressed `RendererServices::texture`. -/
def texture_handle {σ A : Type} (x : Env σ A) (texture_handle : TextureHandle)
    (texture_thread_info : Option TexturePerthread) (args : A)
    (sg : Option ShaderGlobals) (w : World σ) : Except Fault (Bool × World σ) :=
  match resolve_thread_info x texture_thread_info sg w with
  | .error f => .error f
  | .ok (info, w0) =>
    match texturesys w0 with
    | none => .error .nullDeref
    | some ts =>
      let r := x.texture_handle ts texture_handle info args w0.ext
      let status := r.1
      let w1 : World σ :=
        { w0 with ext := r.2, trace := w0.trace ++ [Event.lookup .texture_handle ts status] }
      .ok (relay_failure x ts "[RendererServices::texture] %s" sg status w1)

/-- The name-addressed `RendererServices::texture3d`. -/
def texture3d {σ A : Type} (x : Env σ A) (filename : ustring) (args : A)
    (sg : Option ShaderGlobals) (w : World σ) : Except Fault (Bool × World σ) :=
  match texturesys w with
  | none => .error .nullDeref
  | some ts =>
    let r := x.texture3d ts filename args w.ext
    let status := r.1
    let w1 : World σ :=
      { w with ext := r.2, trace := w.trace ++ [Event.lookup .texture3d ts status] }
    .ok (relay_failure x ts "[RendererServices::texture3d] %s" sg status w1)

/-- The handle-addressed `RendererServices::texture3d`. -/
def texture3d_handle {σ A : Type} (x : Env σ A) (texture_handle : TextureHandle)
    (texture_thread_info : Option TexturePerthread) (args : A)
    (sg : Option ShaderGlobals) (w : World σ) : Except Fault (Bool × World σ) :=
  match resolve_thread_info x texture_thread_info sg w with
  | .error f => .error f
  | .ok (info, w0) =>
    match texturesys w0 with
    | none => .error .nullDeref
    | some ts =>
      let r := x.texture3d_handle ts texture_handle info args w0.ext
      let status := r.1
      let w1 : World σ :=
        { w0 with ext := r.2,
                  trace := w0.trace ++ [Event.lookup .texture3d_handle ts status] }
      .ok (relay_failure x ts "[RendererServices::texture3d] %s" sg status w1)

/-- The name-addressed `RendererServices::environment`. -/
def environment {σ A : Type} (x : Env σ A) (filename : ustring) (args : A)
    (sg : Option ShaderGlobals) (w : World σ) : Except Fault (Bool × World σ) :=
  match texturesys w with
  | none => .error .nullDeref
  | some ts =>
    let r := x.environment ts filename args w.ext
    let status := r.1
    let w1 : World σ :=
      { w with ext := r.2, trace := w.trace ++ [Event.lookup .environment ts status] }
    .ok (relay_failure x ts "[RendererServices::environment] %s" sg status w1)

/-- The handle-addressed `RendererServices::environment`. -/
def environment_handle {σ A : Type} (x : Env σ A) (texture_handle : TextureHandle)
    (texture_thread_info : Option TexturePerthread) (args : A)
    (sg : Option ShaderGlobals) (w : World σ) : Except Fault (Bool × World σ) :=
  match resolve_thread_info x texture_thread_info sg w with
  | .error f => .error f
  | .ok (info, w0) =>
    match texturesys w0 with
    | none => .error .nullDeref
    | some ts =>
      let r := x.environment_handle ts texture_handle info args w0.ext
      let status := r.1
      let w1 : World σ :=
        { w0 with ext := r.2,
                  trace := w0.trace ++ [Event.lookup .environment_handle ts status] }
      .ok (relay_failure x ts "[RendererServices::environment] %s" sg status w1)

/-- The name-addressed `RendererServices::get_texture_info`. -/
def get_texture_info {σ A : Type} (x : Env σ A) (sg : Option ShaderGlobals)
    (filename : ustring) (subimage : Int) (dataname : ustring) (data : A)
    (w : World σ) : Except Fault (Bool × World σ) :=
  match texturesys w with
  | none => .error .nullDeref
  | some ts =>
    let r := x.get_texture_info ts filename subimage dataname data w.ext
    let status := r.1
    let w1 : World σ :=
      { w with ext := r.2, trace := w.trace ++ [Event.lookup .get_texture_info ts status] }
    .ok (relay_failure x ts "[RendererServices::get_texture_info] %s" sg status w1)

/-- The handle-addressed `RendererServices::get_texture_info`.  `OIIO_VERSION` is
the version of the engine the file is compiled against. -/
def get_texture_info_handle {σ A : Type} (OIIO_VERSION : Nat) (x : Env σ A)
    (sg : Option ShaderGlobals) (texture_handle : TextureHandle) (subimage : Int)
    (dataname : ustring) (data : A) (w : World σ) : Except Fault (Bool × World σ) :=
  if OIIO_VERSION ≥ 10602 then
    match texturesys w with
    | none => .error .nullDeref
    | some ts =>
      let r := x.get_texture_info_handle ts texture_handle subimage dataname data w.ext
      let status := r.1
      let w1 : World σ :=
        { w with ext := r.2,
                 trace := w.trace ++ [Event.lookup .get_texture_info_handle ts status] }
      .ok (relay_failure x ts "[RendererServices::get_texture_info] %s" sg status w1)
  else
    .ok (false, w)

/-- The per-thread scratch, `RendererServices::get_texture_perthread`. -/
def get_texture_perthread {σ A : Type} (x : Env σ A) (context : Option ShadingContextPtr)
    (w : World σ) : Except Fault (Option TexturePerthread × World σ) :=
  match context with
  | some c =>
    let t := x.texture_thread_info c w.ext
    .ok (t.1, { w with ext := t.2, trace := w.trace ++ [Event.texture_thread_info c] })
  | none =>
    match texturesys w with
    | none => .error .nullDeref
    | some ts =>
      let t := x.get_perthread_info ts w.ext
      .ok (t.1, { w with ext := t.2, trace := w.trace ++ [Event.get_perthread_info ts] })

/-! ## Transforms -/

/-- The collaborators of the transform part: the four forward `get_matrix`
members, which the renderer implements, and `Matrix44::invert`.  `M` is the
matrix type, `F` the type of `time`.  A forward lookup gets the caller's matrix
and returns its status with whatever it left in the matrix. -/
structure Renderer (σ M F : Type) where
  /-- The call `get_matrix (sg, result, xform, time)`. -/
  get_matrix_xform_time :
    Option ShaderGlobals → M → TransformationPtr → F → σ → (Bool × M) × σ
  /-- The call `get_matrix (sg, result, xform)`. -/
  get_matrix_xform : Option ShaderGlobals → M → TransformationPtr → σ → (Bool × M) × σ
  /-- The call `get_matrix (sg, result, to, time)`. -/
  get_matrix_named_time : Option ShaderGlobals → M → ustring → F → σ → (Bool × M) × σ
  /-- The call `get_matrix (sg, result, to)`. -/
  get_matrix_named : Option ShaderGlobals → M → ustring → σ → (Bool × M) × σ
  /-- The call `result.invert ()`, whatever it yields for a singular matrix. -/
  invert : M → M

/-- The tail shared by the four inverse lookups:
```
if (ok)
    result.invert ();
return ok;
```
applied to what the forward lookup returned. -/
def invert_if_ok {σ M F : Type} (rs : Renderer σ M F) (fwd : (Bool × M) × σ)
    (w : World σ) : (Bool × M) × World σ :=
  let ok := fwd.1.1
  let result := fwd.1.2
  let w1 : World σ := { w with ext := fwd.2, trace := w.trace ++ [Event.get_matrix ok] }
  if ok then
    ((ok, rs.invert result), { w1 with trace := w1.trace ++ [Event.invert] })
  else
    ((ok, result), w1)

/-- The inverse lookup `get_inverse_matrix (sg, result, xform, time)`. -/
def get_inverse_matrix_xform_time {σ M F : Type} (rs : Renderer σ M F)
    (sg : Option ShaderGlobals) (result : M) (xform : TransformationPtr) (time : F)
    (w : World σ) : (Bool × M) × World σ :=
  invert_if_ok rs (rs.get_matrix_xform_time sg result xform time w.ext) w

/-- The inverse lookup `get_inverse_matrix (sg, result, xform)`. -/
def get_inverse_matrix_xform {σ M F : Type} (rs : Renderer σ M F)
    (sg : Option ShaderGlobals) (result : M) (xform : TransformationPtr)
    (w : World σ) : (Bool × M) × World σ :=
  invert_if_ok rs (rs.get_matrix_xform sg result xform w.ext) w

/-- The inverse lookup `get_inverse_matrix (sg, result, to, time)`. -/
def get_inverse_matrix_named_time {σ M F : Type} (rs : Renderer σ M F)
    (sg : Option ShaderGlobals) (result : M) (to_ : ustring) (time : F)
    (w : World σ) : (Bool × M) × World σ :=
  invert_if_ok rs (rs.get_matrix_named_time sg result to_ time w.ext) w

/-- The inverse lookup `get_inverse_matrix (sg, result, to)`. -/
def get_inverse_matrix_named {σ M F : Type} (rs : Renderer σ M F)
    (sg : Option ShaderGlobals) (result : M) (to_ : ustring)
    (w : World σ) : (Bool × M) × World σ :=
  invert_if_ok rs (rs.get_matrix_named sg result to_ w.ext) w

/-! ## Vocabulary of the statements -/

/-- The scratch and the outside state that a handle-addressed lookup hands to the
engine when the shading point is `g`: the caller's scratch if there is one,
otherwise the one cached in the context of `g`. -/
def resolved {σ A : Type} (x : Env σ A) (texture_thread_info : Option TexturePerthread)
    (g : ShaderGlobals) (s : σ) : Option TexturePerthread × σ :=
  match texture_thread_info with
  | some p => (some p, s)
  | none => x.texture_thread_info g.context s

/-- The engine reports failure with a non-empty last-error string: `r` is what
the lookup returned, its status and the state it left. -/
def engine_failed_with_text {σ A : Type} (x : Env σ A) (ts : TextureSystemPtr)
    (r : Bool × σ) : Prop :=
  r.1 = false ∧ (x.geterror ts r.2).1 ≠ ""

/-- The call returned `false` and, while it ran, a diagnostic with non-empty text
was relayed to the context of the shading point `sg`. -/
def returned_false_and_relayed {σ : Type} (sg : Option ShaderGlobals) (w : World σ)
    (run : Except Fault (Bool × World σ)) : Prop :=
  ∃ w2 d, run = .ok (false, w2) ∧ d ∈ relayed (added w w2) ∧ d.text ≠ "" ∧
    sg = some ⟨d.context⟩

/-- The call returned `false` and relayed nothing while it ran. -/
def returned_false_silently {σ : Type} (w : World σ)
    (run : Except Fault (Bool × World σ)) : Prop :=
  ∃ w2, run = .ok (false, w2) ∧ relayed (added w w2) = []

/-- What a call that got `status` from the engine looks like from outside: it
returned that status, left the engine pointer alone, fetched the last error once
if the status is `false` and not at all otherwise, and relayed nothing on
success. -/
def framed {σ : Type} (status : Bool) (w : World σ)
    (run : Except Fault (Bool × World σ)) : Prop :=
  ∃ w2, run = .ok (status, w2) ∧ texturesys w2 = texturesys w ∧
    fetches (added w w2) = (if status then 0 else 1) ∧
    (status = true → relayed (added w w2) = [])

/-- The diagnostics of the shared contract: one, to the context of the shading
point, with the call-site format and the engine's error text, when the engine
returned `false`, the text is not empty and there is a shading point; none
otherwise. -/
def expected_relays (sg : Option ShaderGlobals) (fmt : String) (status : Bool)
    (err : String) : List Diagnostic :=
  match sg with
  | some g => if status = false ∧ err ≠ "" then [⟨g.context, fmt, err⟩] else []
  | none => []

/-- What an inverse lookup has done, given what its forward lookup returned
(`fwd`: status, matrix, outside state): it returns the forward status, it has
inverted once if that status is `true` and not at all otherwise, and the matrix
is the inverted forward matrix in the first case and the forward matrix as it
was left in the second. -/
def mirrors_forward {σ M F : Type} (rs : Renderer σ M F) (fwd : (Bool × M) × σ)
    (w : World σ) (run : (Bool × M) × World σ) : Prop :=
  run.1.1 = fwd.1.1 ∧
  inversions (added w run.2) = (if fwd.1.1 then 1 else 0) ∧
  run.1.2 = (if fwd.1.1 then rs.invert fwd.1.2 else fwd.1.2)

/-! ## A stand-in for the collaborators -/

/-- A stand-in for the engine and the shading context, for concrete runs.  Its
state is the engine's pending error text.  Every lookup returns `status`; a
failing lookup leaves `msg` as the pending error.  `geterror` hands out the
pending text and clears it.  The engine created is number 1, the scratch of the
engine is 7 and the scratch cached in any context is 3. -/
def fixture (status : Bool) (msg : String) : Env String Unit where
  create := fun _ s => (1, s)
  attr := fun _ _ _ s => s
  get_perthread_info := fun _ s => (some 7, s)
  texture := fun _ _ _ s => (status, if status then s else msg)
  texture_handle := fun _ _ _ _ s => (status, if status then s else msg)
  texture3d := fun _ _ _ s => (status, if status then s else msg)
  texture3d_handle := fun _ _ _ _ s => (status, if status then s else msg)
  environment := fun _ _ _ s => (status, if status then s else msg)
  environment_handle := fun _ _ _ _ s => (status, if status then s else msg)
  get_texture_info := fun _ _ _ _ _ s => (status, if status then s else msg)
  get_texture_info_handle := fun _ _ _ _ _ s => (status, if status then s else msg)
  geterror := fun _ s => (s, "")
  texture_thread_info := fun _ s => (some 3, s)

/-- A stand-in for the renderer, with 1×1 rational matrices and rational time:
every forward lookup returns `ok` and, when it succeeds, stores the matrix `m`.
Inversion is the reciprocal, and the identity for the singular matrix 0. -/
def fixture_renderer (ok : Bool) (m : ℚ) : Renderer String ℚ ℚ where
  get_matrix_xform_time := fun _ result _ _ s => ((ok, if ok then m else result), s)
  get_matrix_xform := fun _ result _ s => ((ok, if ok then m else result), s)
  get_matrix_named_time := fun _ result _ _ s => ((ok, if ok then m else result), s)
  get_matrix_named := fun _ result _ s => ((ok, if ok then m else result), s)
  invert := fun q => if q = 0 then 1 else q⁻¹

/-! ## The process-wide engine: theorems -/

theorem texturesys_RendererServices_of_some {σ A : Type} (x : Env σ A)
    (texsys : Option TextureSystemPtr) (w : World σ) (e : TextureSystemPtr)
    (h : texturesys w = some e) : RendererServices x texsys w = w := by
  unfold texturesys at h
  simp [RendererServices, h]

theorem texturesys_constructions_of_some {σ A : Type} (x : Env σ A) (e : TextureSystemPtr) :
    ∀ (l : List (Option TextureSystemPtr)) (w : World σ),
      texturesys w = some e → constructions x l w = w := by
  intro l
  induction l with
  | nil => intro w _; rfl
  | cons texsys rest ih =>
    intro w h
    simp only [constructions]
    rw [texturesys_RendererServices_of_some x texsys w e h]
    exact ih w h

theorem texturesys_RendererServices_isSome {σ A : Type} (x : Env σ A)
    (texsys : Option TextureSystemPtr) (w : World σ) :
    ∃ e, texturesys (RendererServices x texsys w) = some e := by
  unfold RendererServices texturesys
  cases hw : w.texturesys_ with
  | some e => exact ⟨e, by simp [hw]⟩
  | none =>
    cases texsys with
    | some ts => exact ⟨ts, by simp⟩
    | none => exact ⟨(x.create true w.ext).1, by simp⟩

/-- C1: whatever the state of the process, after a construction the engine
pointer is set, and it keeps that value through any further constructions:
`texturesys ()` returns the same engine after each of them, whatever engine they
were handed. -/
theorem engine_pointer_never_changes {σ A : Type} (x : Env σ A) (w : World σ)
    (first : Option TextureSystemPtr) (later : List (Option TextureSystemPtr)) :
    ∃ e, texturesys (RendererServices x first w) = some e ∧
      ∀ k, texturesys (constructions x (later.take k) (RendererServices x first w))
        = some e := by
  obtain ⟨e, he⟩ := texturesys_RendererServices_isSome x first w
  refine ⟨e, he, fun k => ?_⟩
  rw [texturesys_constructions_of_some x e _ _ he]
  exact he

theorem added_of_trace_eq {σ : Type} (w w2 : World σ) (l : List Event)
    (h : w2.trace = w.trace ++ l) : added w w2 = l := by
  simp [added, h]

/-- C6: on a construction that finds the engine pointer NULL, a supplied engine
becomes the process-wide one with no call made to it or anything else; with no
engine supplied, a shared engine is created, exactly the attributes `automip = 1`
and `autotile = 64` are set on it, in that order, and it becomes the
process-wide one. -/
theorem first_construction {σ A : Type} (x : Env σ A) (w : World σ)
    (h : texturesys w = none) :
    (∀ ts, texturesys (RendererServices x (some ts) w) = some ts ∧
        added w (RendererServices x (some ts) w) = [] ∧
        (RendererServices x (some ts) w).ext = w.ext) ∧
    (texturesys (RendererServices x none w) = some (x.create true w.ext).1 ∧
      added w (RendererServices x none w)
        = [Event.create true (x.create true w.ext).1,
           Event.attr (x.create true w.ext).1 "automip" 1,
           Event.attr (x.create true w.ext).1 "autotile" 64] ∧
      attributes (added w (RendererServices x none w))
        = [((x.create true w.ext).1, "automip", 1),
           ((x.create true w.ext).1, "autotile", 64)] ∧
      (RendererServices x none w).ext
        = x.attr (x.create true w.ext).1 "autotile" 64
            (x.attr (x.create true w.ext).1 "automip" 1 (x.create true w.ext).2)) := by
  unfold texturesys at h
  refine ⟨fun ts => ?_, ?_⟩
  · simp [RendererServices, h, texturesys, added]
  · have ht : (RendererServices x none w).trace
        = w.trace ++ [Event.create true (x.create true w.ext).1,
           Event.attr (x.create true w.ext).1 "automip" 1,
           Event.attr (x.create true w.ext).1 "autotile" 64] := by
      simp [RendererServices, h]
    have ha := added_of_trace_eq w _ _ ht
    refine ⟨by simp [RendererServices, h, texturesys], ha, ?_, by simp [RendererServices, h]⟩
    rw [ha]
    rfl

/-- C6 at a concrete input: the first construction of a process, with no engine
supplied and with engine 5 supplied. -/
theorem first_construction_witness :
    texturesys (World.start "" : World String) = none ∧
    texturesys (RendererServices (fixture true "") none (World.start "")) = some 1 ∧
    attributes (added (World.start "")
        (RendererServices (fixture true "") none (World.start "")))
      = [(1, "automip", 1), (1, "autotile", 64)] ∧
    texturesys (RendererServices (fixture true "") (some 5) (World.start "")) = some 5 ∧
    added (World.start "") (RendererServices (fixture true "") (some 5) (World.start ""))
      = [] :=
  ⟨rfl, (first_construction (fixture true "") (World.start "") rfl).2.1,
    (first_construction (fixture true "") (World.start "") rfl).2.2.2.1,
    ((first_construction (fixture true "") (World.start "") rfl).1 5).1,
    ((first_construction (fixture true "") (World.start "") rfl).1 5).2.1⟩

/-! ## Traces -/

theorem relayed_append (l1 l2 : List Event) :
    relayed (l1 ++ l2) = relayed l1 ++ relayed l2 := by
  induction l1 with
  | nil => rfl
  | cons e rest ih => cases e <;> simp [relayed, ih]

theorem fetches_append (l1 l2 : List Event) :
    fetches (l1 ++ l2) = fetches l1 + fetches l2 := by
  induction l1 with
  | nil => simp [fetches]
  | cons e rest ih => cases e <;> simp [fetches, ih]; omega

theorem length_ne_zero_iff (s : String) : s.length ≠ 0 ↔ s ≠ "" := by
  cases s with
  | mk d => cases d <;> simp [String.length, String.ext_iff]

/-! ## The shared tail of the lookups -/

theorem relay_failure_of_success {σ A : Type} (x : Env σ A) (ts : TextureSystemPtr)
    (fmt : String) (sg : Option ShaderGlobals) (w : World σ) :
    relay_failure x ts fmt sg true w = (true, w) := by
  simp [relay_failure]

theorem relay_failure_relays {σ A : Type} (x : Env σ A) (ts : TextureSystemPtr)
    (fmt : String) (g : ShaderGlobals) (w : World σ)
    (herr : (x.geterror ts w.ext).1 ≠ "") :
    relay_failure x ts fmt (some g) false w
      = (false, { texturesys_ := w.texturesys_
                  ext := (x.geterror ts w.ext).2
                  trace := w.trace ++ [Event.geterror ts (x.geterror ts w.ext).1,
                    Event.error g.context fmt (x.geterror ts w.ext).1] }) := by
  have hl := (length_ne_zero_iff _).mpr herr
  simp [relay_failure, hl]

theorem relay_failure_silent {σ A : Type} (x : Env σ A) (ts : TextureSystemPtr)
    (fmt : String) (sg : Option ShaderGlobals) (w : World σ)
    (h : sg = none ∨ (x.geterror ts w.ext).1 = "") :
    relay_failure x ts fmt sg false w
      = (false, { texturesys_ := w.texturesys_
                  ext := (x.geterror ts w.ext).2
                  trace := w.trace ++ [Event.geterror ts (x.geterror ts w.ext).1] }) := by
  cases sg with
  | none => simp [relay_failure]
  | some g =>
    rcases h with h | h
    · cases h
    · simp [relay_failure, h]

theorem text_texture (c : ShadingContextPtr) (arg : String) :
    (Diagnostic.mk c "[RendererServices::texture] %s" arg).text
      = "[RendererServices::texture] " ++ arg := by
  apply String.ext
  simp [Diagnostic.text, substitute]

theorem text_texture3d (c : ShadingContextPtr) (arg : String) :
    (Diagnostic.mk c "[RendererServices::texture3d] %s" arg).text
      = "[RendererServices::texture3d] " ++ arg := by
  apply String.ext
  simp [Diagnostic.text, substitute]

theorem text_environment (c : ShadingContextPtr) (arg : String) :
    (Diagnostic.mk c "[RendererServices::environment] %s" arg).text
      = "[RendererServices::environment] " ++ arg := by
  apply String.ext
  simp [Diagnostic.text, substitute]

theorem text_get_texture_info (c : ShadingContextPtr) (arg : String) :
    (Diagnostic.mk c "[RendererServices::get_texture_info] %s" arg).text
      = "[RendererServices::get_texture_info] " ++ arg := by
  apply String.ext
  simp [Diagnostic.text, substitute]

theorem append_ne_empty (tag arg : String) (h : tag ≠ "") : tag ++ arg ≠ "" := by
  intro h2
  apply h
  have h3 := congrArg String.data h2
  simp at h3
  exact String.ext (by simpa using h3.1)

/-- The shared tail relays a diagnostic and returns `false` exactly when the
status is `false`, the error text fetched is not empty and there is a shading
point.  `pre` are the events of the call before the tail. -/
theorem relay_failure_iff {σ A : Type} (x : Env σ A) (ts : TextureSystemPtr)
    (fmt : String) (sg : Option ShaderGlobals) (status : Bool) (w w1 : World σ)
    (pre : List Event) (hpre : w1.trace = w.trace ++ pre) (hrel : relayed pre = [])
    (hfmt : ∀ c arg, (Diagnostic.mk c fmt arg).text ≠ "") :
    returned_false_and_relayed sg w (.ok (relay_failure x ts fmt sg status w1)) ↔
      (status = false ∧ (x.geterror ts w1.ext).1 ≠ "") ∧ sg ≠ none := by
  cases status with
  | true =>
    rw [relay_failure_of_success]
    constructor
    · rintro ⟨w2, d, h1, -⟩
      simp at h1
    · rintro ⟨⟨h1, -⟩, -⟩
      simp at h1
  | false =>
    by_cases hs : sg = none ∨ (x.geterror ts w1.ext).1 = ""
    · rw [relay_failure_silent x ts fmt sg w1 hs]
      constructor
      · rintro ⟨w2, d, h1, h2, -, h4⟩
        simp only [Except.ok.injEq, Prod.mk.injEq, true_and] at h1
        subst h1
        rw [added_of_trace_eq w _ (pre ++ [Event.geterror ts (x.geterror ts w1.ext).1])
          (by simp [hpre])] at h2
        simp [relayed_append, hrel, relayed] at h2
      · rintro ⟨⟨-, h1⟩, h2⟩
        rcases hs with hs | hs
        · exact absurd hs h2
        · exact absurd hs h1
    · have hs1 : sg ≠ none := fun h => hs (Or.inl h)
      have hs2 : (x.geterror ts w1.ext).1 ≠ "" := fun h => hs (Or.inr h)
      obtain ⟨g, rfl⟩ := Option.ne_none_iff_exists'.mp hs1
      rw [relay_failure_relays x ts fmt g w1 hs2]
      constructor
      · intro _
        exact ⟨⟨rfl, hs2⟩, hs1⟩
      · intro _
        refine ⟨_, ⟨g.context, fmt, (x.geterror ts w1.ext).1⟩, rfl, ?_, hfmt _ _, rfl⟩
        rw [added_of_trace_eq w _ (pre ++ [Event.geterror ts (x.geterror ts w1.ext).1,
          Event.error g.context fmt (x.geterror ts w1.ext).1]) (by simp [hpre])]
        simp [relayed_append, hrel, relayed]

theorem resolve_thread_info_none {σ A : Type} (x : Env σ A)
    (info : Option TexturePerthread) (w : World σ) :
    resolve_thread_info x info none w = .error .nullDeref := rfl

theorem resolve_thread_info_some {σ A : Type} (x : Env σ A)
    (info : Option TexturePerthread) (g : ShaderGlobals) (w : World σ) :
    ∃ pre, relayed pre = [] ∧ fetches pre = 0 ∧
      resolve_thread_info x info (some g) w
        = .ok ((resolved x info g w.ext).1,
            { texturesys_ := w.texturesys_
              ext := (resolved x info g w.ext).2
              trace := w.trace ++ pre }) := by
  cases info with
  | some p => exact ⟨[], rfl, rfl, by simp [resolve_thread_info, resolved]⟩
  | none =>
    exact ⟨[Event.texture_thread_info g.context], rfl, rfl,
      by simp [resolve_thread_info, resolved]⟩

theorem texture_ne_empty (c : ShadingContextPtr) (arg : String) :
    (Diagnostic.mk c "[RendererServices::texture] %s" arg).text ≠ "" := by
  rw [text_texture]
  exact append_ne_empty _ _ (by decide)

theorem texture3d_ne_empty (c : ShadingContextPtr) (arg : String) :
    (Diagnostic.mk c "[RendererServices::texture3d] %s" arg).text ≠ "" := by
  rw [text_texture3d]
  exact append_ne_empty _ _ (by decide)

theorem environment_ne_empty (c : ShadingContextPtr) (arg : String) :
    (Diagnostic.mk c "[RendererServices::environment] %s" arg).text ≠ "" := by
  rw [text_environment]
  exact append_ne_empty _ _ (by decide)

theorem not_relayed_of_error {σ : Type} (sg : Option ShaderGlobals) (w : World σ)
    (f : Fault) : ¬ returned_false_and_relayed sg w (.error f) := by
  rintro ⟨w2, d, h, -⟩
  cases h

/-! ## Lookups: theorems -/

/-- C2: for each of the six sampling calls, on a process whose engine is `ts`:
the call returns `false` and relays a diagnostic with non-empty text to the
context of the shading point if and only if the engine reports failure with a
non-empty last-error string and a shading point was supplied.  For the
handle-addressed calls the engine is asked with the scratch resolved for the
shading point. -/
theorem relay_iff_engine_failure_and_shading_point {σ A : Type} (x : Env σ A)
    (w : World σ) (ts : TextureSystemPtr) (h : texturesys w = some ts)
    (filename : ustring) (handle : TextureHandle) (info : Option TexturePerthread)
    (args : A) (sg : Option ShaderGlobals) :
    (returned_false_and_relayed sg w (texture x filename args sg w) ↔
      engine_failed_with_text x ts (x.texture ts filename args w.ext) ∧ sg ≠ none) ∧
    (returned_false_and_relayed sg w (texture3d x filename args sg w) ↔
      engine_failed_with_text x ts (x.texture3d ts filename args w.ext) ∧ sg ≠ none) ∧
    (returned_false_and_relayed sg w (environment x filename args sg w) ↔
      engine_failed_with_text x ts (x.environment ts filename args w.ext) ∧ sg ≠ none) ∧
    (returned_false_and_relayed sg w (texture_handle x handle info args sg w) ↔
      ∃ g, sg = some g ∧ engine_failed_with_text x ts
        (x.texture_handle ts handle (resolved x info g w.ext).1 args
          (resolved x info g w.ext).2)) ∧
    (returned_false_and_relayed sg w (texture3d_handle x handle info args sg w) ↔
      ∃ g, sg = some g ∧ engine_failed_with_text x ts
        (x.texture3d_handle ts handle (resolved x info g w.ext).1 args
          (resolved x info g w.ext).2)) ∧
    (returned_false_and_relayed sg w (environment_handle x handle info args sg w) ↔
      ∃ g, sg = some g ∧ engine_failed_with_text x ts
        (x.environment_handle ts handle (resolved x info g w.ext).1 args
          (resolved x info g w.ext).2)) := by
  refine ⟨?_, ?_, ?_, ?_, ?_, ?_⟩
  · simp only [texture, h]
    exact relay_failure_iff x ts _ sg _ w _ [_] rfl rfl texture_ne_empty
  · simp only [texture3d, h]
    exact relay_failure_iff x ts _ sg _ w _ [_] rfl rfl texture3d_ne_empty
  · simp only [environment, h]
    exact relay_failure_iff x ts _ sg _ w _ [_] rfl rfl environment_ne_empty
  · cases sg with
    | none =>
      simp only [texture_handle, resolve_thread_info_none]
      exact ⟨fun hr => absurd hr (not_relayed_of_error _ _ _), fun ⟨g, hg, _⟩ => by cases hg⟩
    | some g =>
      obtain ⟨pre, hrel, -, hres⟩ := resolve_thread_info_some x info g w
      simp only [texture_handle, hres, texturesys] at h ⊢
      simp only [h]
      refine (relay_failure_iff x ts _ (some g) _ w _ (pre ++ [_]) (List.append_assoc _ _ _) ?_
        texture_ne_empty).trans ?_
      · simp [relayed_append, hrel, relayed]
      · simp [engine_failed_with_text]
  · cases sg with
    | none =>
      simp only [texture3d_handle, resolve_thread_info_none]
      exact ⟨fun hr => absurd hr (not_relayed_of_error _ _ _), fun ⟨g, hg, _⟩ => by cases hg⟩
    | some g =>
      obtain ⟨pre, hrel, -, hres⟩ := resolve_thread_info_some x info g w
      simp only [texture3d_handle, hres, texturesys] at h ⊢
      simp only [h]
      refine (relay_failure_iff x ts _ (some g) _ w _ (pre ++ [_]) (List.append_assoc _ _ _) ?_
        texture3d_ne_empty).trans ?_
      · simp [relayed_append, hrel, relayed]
      · simp [engine_failed_with_text]
  · cases sg with
    | none =>
      simp only [environment_handle, resolve_thread_info_none]
      exact ⟨fun hr => absurd hr (not_relayed_of_error _ _ _), fun ⟨g, hg, _⟩ => by cases hg⟩
    | some g =>
      obtain ⟨pre, hrel, -, hres⟩ := resolve_thread_info_some x info g w
      simp only [environment_handle, hres, texturesys] at h ⊢
      simp only [h]
      refine (relay_failure_iff x ts _ (some g) _ w _ (pre ++ [_]) (List.append_assoc _ _ _) ?_
        environment_ne_empty).trans ?_
      · simp [relayed_append, hrel, relayed]
      · simp [engine_failed_with_text]

/-- C2 at a concrete input: an engine that rejects a handle with the error text
"file not found", asked with a shading point whose context is 9. -/
theorem relay_iff_engine_failure_and_shading_point_witness :
    texturesys (RendererServices (fixture false "file not found") none (World.start ""))
      = some 1 ∧
    returned_false_and_relayed (some ⟨9⟩)
      (RendererServices (fixture false "file not found") none (World.start ""))
      (texture_handle (fixture false "file not found") 5 none () (some ⟨9⟩)
        (RendererServices (fixture false "file not found") none (World.start ""))) :=
  ⟨rfl, (relay_iff_engine_failure_and_shading_point (fixture false "file not found")
      (RendererServices (fixture false "file not found") none (World.start "")) 1 rfl
      "grid.tx" 5 none () (some ⟨9⟩)).2.2.2.1.mpr ⟨⟨9⟩, rfl, rfl, by decide⟩⟩

theorem silent_of_failure_without_shading_point {σ A : Type} (x : Env σ A)
    (ts : TextureSystemPtr) (fmt : String) (w w1 : World σ) (e : Event)
    (hpre : w1.trace = w.trace ++ [e]) (hrel : relayed [e] = []) :
    returned_false_silently w (.ok (relay_failure x ts fmt none false w1)) := by
  rw [relay_failure_silent x ts fmt none w1 (Or.inl rfl)]
  refine ⟨_, rfl, ?_⟩
  rw [added_of_trace_eq w _ ([e] ++ [Event.geterror ts (x.geterror ts w1.ext).1])
    (by simp [hpre])]
  rw [relayed_append, hrel]
  rfl

/-- C3: with no shading point and an engine that reports failure, the three
name-addressed sampling calls return `false` and relay nothing; the three
handle-addressed ones do not return: they read `sg->context` from the NULL
shading point before anything else, whatever scratch was passed. -/
theorem sampling_without_shading_point {σ A : Type} (x : Env σ A)
    (w : World σ) (ts : TextureSystemPtr) (h : texturesys w = some ts)
    (filename : ustring) (handle : TextureHandle) (info : Option TexturePerthread)
    (args : A) :
    ((x.texture ts filename args w.ext).1 = false →
      returned_false_silently w (texture x filename args none w)) ∧
    ((x.texture3d ts filename args w.ext).1 = false →
      returned_false_silently w (texture3d x filename args none w)) ∧
    ((x.environment ts filename args w.ext).1 = false →
      returned_false_silently w (environment x filename args none w)) ∧
    texture_handle x handle info args none w = .error .nullDeref ∧
    texture3d_handle x handle info args none w = .error .nullDeref ∧
    environment_handle x handle info args none w = .error .nullDeref := by
  refine ⟨fun hf => ?_, fun hf => ?_, fun hf => ?_, rfl, rfl, rfl⟩
  · simp only [texture, h, hf]
    exact silent_of_failure_without_shading_point x ts _ w _ _ rfl rfl
  · simp only [texture3d, h, hf]
    exact silent_of_failure_without_shading_point x ts _ w _ _ rfl rfl
  · simp only [environment, h, hf]
    exact silent_of_failure_without_shading_point x ts _ w _ _ rfl rfl

/-- C3 at a concrete input: the handle-addressed `texture` with handle 5, a
scratch 3, no shading point, on an engine that rejects every lookup. -/
theorem sampling_without_shading_point_witness :
    texturesys (RendererServices (fixture false "file not found") none (World.start ""))
      = some 1 ∧
    texture_handle (fixture false "file not found") 5 (some 3) () none
        (RendererServices (fixture false "file not found") none (World.start ""))
      = .error .nullDeref ∧
    returned_false_silently
      (RendererServices (fixture false "file not found") none (World.start ""))
      (texture (fixture false "file not found") "grid.tx" () none
        (RendererServices (fixture false "file not found") none (World.start ""))) :=
  ⟨rfl, (sampling_without_shading_point (fixture false "file not found")
      (RendererServices (fixture false "file not found") none (World.start "")) 1 rfl
      "grid.tx" 5 (some 3) ()).2.2.2.1,
    (sampling_without_shading_point (fixture false "file not found")
      (RendererServices (fixture false "file not found") none (World.start "")) 1 rfl
      "grid.tx" 5 (some 3) ()).1 rfl⟩

theorem texturesys_RendererServices_of_none {σ A : Type} (x : Env σ A) (w : World σ)
    (h : texturesys w = none) :
    texturesys (RendererServices x none w) = some (x.create true w.ext).1 := by
  unfold texturesys at h
  simp [RendererServices, h, texturesys]

/-- C5 as stated fails: on a facade constructed without an engine, with an engine
that rejects handle 5 with "file not found" and a shading point of context 9, the
handle-addressed `texture` does not relay exactly one diagnostic whose text
contains "[texture] file not found". -/
theorem texture_tag_counterexample :
    ¬ ∃ w2 d,
      texture_handle (fixture false "file not found") 5 none () (some ⟨9⟩)
          (RendererServices (fixture false "file not found") none (World.start ""))
        = .ok (false, w2) ∧
      relayed (added
          (RendererServices (fixture false "file not found") none (World.start "")) w2)
        = [d] ∧
      occursIn "[texture] file not found" d.text := by
  rintro ⟨w2, d, h1, h2, h3⟩
  have hrun : texture_handle (fixture false "file not found") 5 none () (some ⟨9⟩)
      (RendererServices (fixture false "file not found") none (World.start ""))
      = .ok (false,
          { texturesys_ := some 1
            ext := ""
            trace := [Event.create true 1, Event.attr 1 "automip" 1,
              Event.attr 1 "autotile" 64, Event.texture_thread_info 9,
              Event.lookup .texture_handle 1 false, Event.geterror 1 "file not found",
              Event.error 9 "[RendererServices::texture] %s" "file not found"] }) := by
    rfl
  rw [hrun] at h1
  simp only [Except.ok.injEq, Prod.mk.injEq, true_and] at h1
  subst h1
  have hd : d = ⟨9, "[RendererServices::texture] %s", "file not found"⟩ := by
    have h4 : [Diagnostic.mk 9 "[RendererServices::texture] %s" "file not found"] = [d] := h2
    simpa using h4.symm
  subst hd
  revert h3
  unfold occursIn
  decide

theorem relayed_one_of_failure {σ A : Type} (x : Env σ A) (ts : TextureSystemPtr)
    (fmt : String) (g : ShaderGlobals) (w w1 : World σ) (pre : List Event)
    (hpre : w1.trace = w.trace ++ pre) (hrel : relayed pre = [])
    (herr : (x.geterror ts w1.ext).1 ≠ "") :
    ∃ w2, Except.ok (relay_failure x ts fmt (some g) false w1)
        = (Except.ok (false, w2) : Except Fault (Bool × World σ)) ∧
      relayed (added w w2) = [⟨g.context, fmt, (x.geterror ts w1.ext).1⟩] := by
  rw [relay_failure_relays x ts fmt g w1 herr]
  refine ⟨_, rfl, ?_⟩
  rw [added_of_trace_eq w _ (pre ++ [Event.geterror ts (x.geterror ts w1.ext).1,
    Event.error g.context fmt (x.geterror ts w1.ext).1]) (by simp [hpre])]
  simp [relayed_append, hrel, relayed]

/-- C5, amended: on a facade constructed without a pre-supplied engine, when
`texture` is asked with a shading point for a handle (or a name) that the engine
rejects with last-error text "file not found", the call returns `false` and
exactly one diagnostic is relayed, to the context of the shading point, and its
text is "[RendererServices::texture] file not found": the tag
`[RendererServices::texture]`, a blank, and the engine's error string. -/
theorem texture_failure_diagnostic {σ A : Type} (x : Env σ A) (w0 w : World σ)
    (h0 : texturesys w0 = none) (hw : w = RendererServices x none w0)
    (filename : ustring) (handle : TextureHandle) (info : Option TexturePerthread)
    (args : A) (g : ShaderGlobals) :
    ((x.texture_handle (x.create true w0.ext).1 handle (resolved x info g w.ext).1 args
          (resolved x info g w.ext).2).1 = false →
      (x.geterror (x.create true w0.ext).1
          (x.texture_handle (x.create true w0.ext).1 handle (resolved x info g w.ext).1
            args (resolved x info g w.ext).2).2).1 = "file not found" →
      ∃ w2 d, texture_handle x handle info args (some g) w = .ok (false, w2) ∧
        relayed (added w w2) = [d] ∧ d.context = g.context ∧
        d.text = "[RendererServices::texture] file not found") ∧
    ((x.texture (x.create true w0.ext).1 filename args w.ext).1 = false →
      (x.geterror (x.create true w0.ext).1
          (x.texture (x.create true w0.ext).1 filename args w.ext).2).1
        = "file not found" →
      ∃ w2 d, texture x filename args (some g) w = .ok (false, w2) ∧
        relayed (added w w2) = [d] ∧ d.context = g.context ∧
        d.text = "[RendererServices::texture] file not found") := by
  have h : texturesys w = some (x.create true w0.ext).1 := by
    rw [hw]
    exact texturesys_RendererServices_of_none x w0 h0
  have htext : (Diagnostic.mk g.context "[RendererServices::texture] %s"
      "file not found").text = "[RendererServices::texture] file not found" :=
    (text_texture _ _).trans (by decide)
  refine ⟨fun hfail herr => ?_, fun hfail herr => ?_⟩
  · obtain ⟨pre, hrel, -, hres⟩ := resolve_thread_info_some x info g w
    simp only [texture_handle, hres, texturesys] at h ⊢
    simp only [h, hfail]
    obtain ⟨w2, hrun, hd⟩ := relayed_one_of_failure x (x.create true w0.ext).1
      "[RendererServices::texture] %s" g w
      { texturesys_ := some (x.create true w0.ext).1
        ext := (x.texture_handle (x.create true w0.ext).1 handle
          (resolved x info g w.ext).1 args (resolved x info g w.ext).2).2
        trace := w.trace ++ pre ++ [Event.lookup .texture_handle (x.create true w0.ext).1
          false] }
      (pre ++ [Event.lookup .texture_handle (x.create true w0.ext).1 false])
      (List.append_assoc _ _ _) (by simp [relayed_append, hrel, relayed])
      (by rw [herr]; decide)
    rw [herr] at hd
    exact ⟨w2, _, hrun, hd, rfl, htext⟩
  · simp only [texture, h, hfail]
    obtain ⟨w2, hrun, hd⟩ := relayed_one_of_failure x (x.create true w0.ext).1
      "[RendererServices::texture] %s" g w
      { texturesys_ := w.texturesys_
        ext := (x.texture (x.create true w0.ext).1 filename args w.ext).2
        trace := w.trace ++ [Event.lookup .texture (x.create true w0.ext).1 false] }
      [Event.lookup .texture (x.create true w0.ext).1 false]
      rfl rfl (by rw [herr]; decide)
    rw [herr] at hd
    exact ⟨w2, _, hrun, hd, rfl, htext⟩

/-- C5, amended, at a concrete input: handle 5 and the name "grid.tx", no scratch,
a shading point of context 9, an engine that rejects with "file not found". -/
theorem texture_failure_diagnostic_witness :
    texturesys (World.start "" : World String) = none ∧
    (∃ w2 d, texture_handle (fixture false "file not found") 5 none () (some ⟨9⟩)
          (RendererServices (fixture false "file not found") none (World.start ""))
        = .ok (false, w2) ∧
      relayed (added
          (RendererServices (fixture false "file not found") none (World.start "")) w2)
        = [d] ∧
      d.context = 9 ∧ d.text = "[RendererServices::texture] file not found") :=
  ⟨rfl, (texture_failure_diagnostic (fixture false "file not found") (World.start "")
      (RendererServices (fixture false "file not found") none (World.start "")) rfl rfl
      "grid.tx" 5 none () ⟨9⟩).1 rfl rfl⟩

/-- The shared tail, in full: it returns the status, leaves the engine pointer
alone, fetches the last error once on failure and never otherwise, and relays
the diagnostics of the shared contract.  `pre` are the events of the call before
the tail. -/
theorem relay_failure_exact {σ A : Type} (x : Env σ A) (ts : TextureSystemPtr)
    (fmt : String) (sg : Option ShaderGlobals) (status : Bool) (w w1 : World σ)
    (pre : List Event) (hpre : w1.trace = w.trace ++ pre) (hrel : relayed pre = [])
    (hf : fetches pre = 0) (hts : w1.texturesys_ = w.texturesys_) :
    ∃ w2, relay_failure x ts fmt sg status w1 = (status, w2) ∧
      texturesys w2 = texturesys w ∧
      fetches (added w w2) = (if status then 0 else 1) ∧
      relayed (added w w2) = expected_relays sg fmt status (x.geterror ts w1.ext).1 := by
  cases status with
  | true =>
    refine ⟨w1, relay_failure_of_success x ts fmt sg w1, hts, ?_, ?_⟩
    · rw [added_of_trace_eq w w1 pre hpre, hf]
      rfl
    · rw [added_of_trace_eq w w1 pre hpre, hrel]
      cases sg <;> simp [expected_relays]
  | false =>
    by_cases hs : sg = none ∨ (x.geterror ts w1.ext).1 = ""
    · refine ⟨_, relay_failure_silent x ts fmt sg w1 hs, hts, ?_, ?_⟩
      · rw [added_of_trace_eq w _ (pre ++ [Event.geterror ts (x.geterror ts w1.ext).1])
          (by simp [hpre])]
        simp [fetches_append, hf, fetches]
      · rw [added_of_trace_eq w _ (pre ++ [Event.geterror ts (x.geterror ts w1.ext).1])
          (by simp [hpre])]
        rcases hs with hs | hs
        · simp [relayed_append, hrel, relayed, expected_relays, hs]
        · cases sg <;> simp [relayed_append, hrel, relayed, expected_relays, hs]
    · have hs1 : sg ≠ none := fun h => hs (Or.inl h)
      have hs2 : (x.geterror ts w1.ext).1 ≠ "" := fun h => hs (Or.inr h)
      obtain ⟨g, rfl⟩ := Option.ne_none_iff_exists'.mp hs1
      refine ⟨_, relay_failure_relays x ts fmt g w1 hs2, hts, ?_, ?_⟩
      · rw [added_of_trace_eq w _ (pre ++ [Event.geterror ts (x.geterror ts w1.ext).1,
          Event.error g.context fmt (x.geterror ts w1.ext).1]) (by simp [hpre])]
        simp [fetches_append, hf, fetches]
      · rw [added_of_trace_eq w _ (pre ++ [Event.geterror ts (x.geterror ts w1.ext).1,
          Event.error g.context fmt (x.geterror ts w1.ext).1]) (by simp [hpre])]
        simp [relayed_append, hrel, relayed, expected_relays, hs2]

theorem added_self {σ : Type} (w : World σ) : added w w = [] := by
  simp [added]

/-- C7: the handle-addressed `get_texture_info`.  Compiled against an engine
older than 1.6.2 it returns `false` for every input and leaves the process as it
was: no lookup, no last-error fetch, no diagnostic.  Compiled against 1.6.2 or
later, on a process whose engine is `ts`, it returns the engine's status and
relays exactly the diagnostics of the shared contract, whose text is
"[RendererServices::get_texture_info] " followed by the engine's error string. -/
theorem get_texture_info_handle_capability {σ A : Type} (x : Env σ A) (w : World σ)
    (sg : Option ShaderGlobals) (handle : TextureHandle) (subimage : Int)
    (dataname : ustring) (data : A) :
    (∀ v, v < 10602 →
      get_texture_info_handle v x sg handle subimage dataname data w = .ok (false, w) ∧
      fetches (added w w) = 0 ∧ relayed (added w w) = []) ∧
    (∀ v ts, 10602 ≤ v → texturesys w = some ts →
      ∃ w2, get_texture_info_handle v x sg handle subimage dataname data w
          = .ok ((x.get_texture_info_handle ts handle subimage dataname data w.ext).1,
              w2) ∧
        fetches (added w w2)
          = (if (x.get_texture_info_handle ts handle subimage dataname data w.ext).1
              then 0 else 1) ∧
        relayed (added w w2)
          = expected_relays sg "[RendererServices::get_texture_info] %s"
              (x.get_texture_info_handle ts handle subimage dataname data w.ext).1
              (x.geterror ts
                (x.get_texture_info_handle ts handle subimage dataname data w.ext).2).1 ∧
        ∀ d ∈ relayed (added w w2), d.text = "[RendererServices::get_texture_info] " ++
          (x.geterror ts
            (x.get_texture_info_handle ts handle subimage dataname data w.ext).2).1) := by
  refine ⟨fun v hv => ?_, fun v ts hv h => ?_⟩
  · have hlt : ¬ v ≥ 10602 := by omega
    refine ⟨by simp [get_texture_info_handle, hlt], ?_, ?_⟩
    · rw [added_self]; rfl
    · rw [added_self]; rfl
  · have hge : v ≥ 10602 := hv
    simp only [get_texture_info_handle, hge, if_true, h]
    obtain ⟨w2, hrun, -, hfe, hrel⟩ := relay_failure_exact x ts
      "[RendererServices::get_texture_info] %s" sg
      (x.get_texture_info_handle ts handle subimage dataname data w.ext).1 w
      { texturesys_ := w.texturesys_
        ext := (x.get_texture_info_handle ts handle subimage dataname data w.ext).2
        trace := w.trace ++ [Event.lookup .get_texture_info_handle ts
          (x.get_texture_info_handle ts handle subimage dataname data w.ext).1] }
      [_] rfl rfl rfl rfl
    refine ⟨w2, by rw [hrun], hfe, hrel, fun d hd => ?_⟩
    rw [hrel] at hd
    cases sg with
    | none => simp [expected_relays] at hd
    | some g =>
      simp only [expected_relays] at hd
      split at hd
      · simp only [List.mem_singleton] at hd
        subst hd
        exact text_get_texture_info _ _
      · simp at hd

/-- C7 at concrete inputs: compiled against 1.6.1 and against 1.6.2, on an engine
that rejects with "file not found", with a shading point of context 9. -/
theorem get_texture_info_handle_capability_witness :
    (10601 < 10602 ∧
      get_texture_info_handle 10601 (fixture false "file not found") (some ⟨9⟩) 5 0
          "channels" ()
          (RendererServices (fixture false "file not found") none (World.start ""))
        = .ok (false,
            RendererServices (fixture false "file not found") none (World.start ""))) ∧
    (10602 ≤ 10602 ∧
      texturesys (RendererServices (fixture false "file not found") none (World.start ""))
        = some 1 ∧
      ∃ w2, get_texture_info_handle 10602 (fixture false "file not found") (some ⟨9⟩) 5 0
            "channels" ()
            (RendererServices (fixture false "file not found") none (World.start ""))
          = .ok (false, w2) ∧
        relayed (added
            (RendererServices (fixture false "file not found") none (World.start "")) w2)
          = [⟨9, "[RendererServices::get_texture_info] %s", "file not found"⟩]) :=
  ⟨⟨by decide, ((get_texture_info_handle_capability (fixture false "file not found")
      (RendererServices (fixture false "file not found") none (World.start ""))
      (some ⟨9⟩) 5 0 "channels" ()).1 10601 (by decide)).1⟩,
    by decide, rfl,
    (((get_texture_info_handle_capability (fixture false "file not found")
      (RendererServices (fixture false "file not found") none (World.start ""))
      (some ⟨9⟩) 5 0 "channels" ()).2 10602 1 (by decide) rfl).imp
      (fun _ hw2 => ⟨hw2.1, hw2.2.2.1⟩))⟩

/-- C8: `get_texture_perthread` with a non-null context returns the scratch
cached in that context and makes no call to the engine, whatever the state of
the process; with a NULL context, on a process whose engine is `ts`, it returns
the scratch the engine hands out, asking for it exactly once. -/
theorem get_texture_perthread_source {σ A : Type} (x : Env σ A) (w : World σ) :
    (∀ c, ∃ w2, get_texture_perthread x (some c) w
          = .ok ((x.texture_thread_info c w.ext).1, w2) ∧
        added w w2 = [Event.texture_thread_info c] ∧
        perthread_requests (added w w2) = 0) ∧
    (∀ ts, texturesys w = some ts →
      ∃ w2, get_texture_perthread x none w = .ok ((x.get_perthread_info ts w.ext).1, w2) ∧
        added w w2 = [Event.get_perthread_info ts] ∧
        perthread_requests (added w w2) = 1) := by
  refine ⟨fun c => ⟨_, rfl, ?_⟩, fun ts h => ?_⟩
  · have ha := added_of_trace_eq w
      { texturesys_ := w.texturesys_, ext := (x.texture_thread_info c w.ext).2,
        trace := w.trace ++ [Event.texture_thread_info c] } _ rfl
    exact ⟨ha, by rw [ha]; rfl⟩
  · simp only [get_texture_perthread, h]
    have ha := added_of_trace_eq w
      { texturesys_ := w.texturesys_, ext := (x.get_perthread_info ts w.ext).2,
        trace := w.trace ++ [Event.get_perthread_info ts] } _ rfl
    exact ⟨_, rfl, ha, by rw [ha]; rfl⟩

/-- C8 at a concrete input: context 9, and no context, on a constructed facade. -/
theorem get_texture_perthread_source_witness :
    texturesys (RendererServices (fixture true "") none (World.start "")) = some 1 ∧
    (∃ w2, get_texture_perthread (fixture true "") none
          (RendererServices (fixture true "") none (World.start ""))
        = .ok (some 7, w2) ∧
      perthread_requests
        (added (RendererServices (fixture true "") none (World.start "")) w2) = 1) ∧
    (∃ w2, get_texture_perthread (fixture true "") (some 9)
          (RendererServices (fixture true "") none (World.start ""))
        = .ok (some 3, w2) ∧
      perthread_requests
        (added (RendererServices (fixture true "") none (World.start "")) w2) = 0) :=
  ⟨rfl,
    ((get_texture_perthread_source (fixture true "")
      (RendererServices (fixture true "") none (World.start ""))).2 1 rfl).imp
      (fun _ hw2 => ⟨hw2.1, hw2.2.2⟩),
    ((get_texture_perthread_source (fixture true "")
      (RendererServices (fixture true "") none (World.start ""))).1 9).imp
      (fun _ hw2 => ⟨hw2.1, hw2.2.2⟩)⟩

theorem not_framed_of_error {σ : Type} (status : Bool) (w : World σ) (f : Fault) :
    ¬ framed status w (.error f) := by
  rintro ⟨w2, h, -⟩
  cases h

theorem framed_of_exact {σ A : Type} (x : Env σ A) (ts : TextureSystemPtr)
    (fmt : String) (sg : Option ShaderGlobals) (status : Bool) (w w1 : World σ)
    (pre : List Event) (hpre : w1.trace = w.trace ++ pre) (hrel : relayed pre = [])
    (hf : fetches pre = 0) (hts : w1.texturesys_ = w.texturesys_) :
    framed status w (.ok (relay_failure x ts fmt sg status w1)) := by
  obtain ⟨w2, hrun, hp, hfe, hr⟩ :=
    relay_failure_exact x ts fmt sg status w w1 pre hpre hrel hf hts
  refine ⟨w2, by rw [hrun], hp, hfe, fun hst => ?_⟩
  rw [hr, hst]
  cases sg <;> simp [expected_relays]

/-- C10: on a process whose engine is `ts`, every sampling and metadata call that
reaches the engine returns the status the engine gave, leaves the process-wide
engine pointer as it was, fetches the last-error string exactly once when that
status is `false` and not at all when it is `true`, and relays nothing when it is
`true`.  The name-addressed calls reach the engine for every shading point, NULL
or not; the handle-addressed `get_texture_info` reaches it when compiled against
engine 1.6.2 or later, and otherwise returns `false` with no fetch, no relay and
the pointer unchanged.  The three handle-addressed sampling calls do so when a
shading point is supplied.  With a NULL shading point they break the claim: they
read `sg->context` first and do not return, whatever the engine would have
answered, so they return no status at all, `true` included. -/
theorem success_path_frame {σ A : Type} (x : Env σ A) (w : World σ)
    (ts : TextureSystemPtr) (h : texturesys w = some ts) (filename : ustring)
    (handle : TextureHandle) (info : Option TexturePerthread) (args : A)
    (sg : Option ShaderGlobals) (g : ShaderGlobals) (subimage : Int)
    (dataname : ustring) (v : Nat) :
    framed (x.texture ts filename args w.ext).1 w (texture x filename args sg w) ∧
    framed (x.texture3d ts filename args w.ext).1 w (texture3d x filename args sg w) ∧
    framed (x.environment ts filename args w.ext).1 w
      (environment x filename args sg w) ∧
    framed (x.texture_handle ts handle (resolved x info g w.ext).1 args
        (resolved x info g w.ext).2).1 w
      (texture_handle x handle info args (some g) w) ∧
    framed (x.texture3d_handle ts handle (resolved x info g w.ext).1 args
        (resolved x info g w.ext).2).1 w
      (texture3d_handle x handle info args (some g) w) ∧
    framed (x.environment_handle ts handle (resolved x info g w.ext).1 args
        (resolved x info g w.ext).2).1 w
      (environment_handle x handle info args (some g) w) ∧
    framed (x.get_texture_info ts filename subimage dataname args w.ext).1 w
      (get_texture_info x sg filename subimage dataname args w) ∧
    (10602 ≤ v →
      framed (x.get_texture_info_handle ts handle subimage dataname args w.ext).1 w
        (get_texture_info_handle v x sg handle subimage dataname args w)) ∧
    (v < 10602 →
      ∃ w2, get_texture_info_handle v x sg handle subimage dataname args w
          = .ok (false, w2) ∧
        texturesys w2 = texturesys w ∧ fetches (added w w2) = 0 ∧
        relayed (added w w2) = []) ∧
    (texture_handle x handle info args none w = .error .nullDeref ∧
      ∀ b, ¬ framed b w (texture_handle x handle info args none w)) ∧
    (texture3d_handle x handle info args none w = .error .nullDeref ∧
      ∀ b, ¬ framed b w (texture3d_handle x handle info args none w)) ∧
    (environment_handle x handle info args none w = .error .nullDeref ∧
      ∀ b, ¬ framed b w (environment_handle x handle info args none w)) := by
  refine ⟨?_, ?_, ?_, ?_, ?_, ?_, ?_, fun hv => ?_, fun hv => ?_,
    ⟨rfl, fun b => not_framed_of_error b w _⟩, ⟨rfl, fun b => not_framed_of_error b w _⟩,
    ⟨rfl, fun b => not_framed_of_error b w _⟩⟩
  · simp only [texture, h]
    exact framed_of_exact x ts _ sg _ w _ [_] rfl rfl rfl rfl
  · simp only [texture3d, h]
    exact framed_of_exact x ts _ sg _ w _ [_] rfl rfl rfl rfl
  · simp only [environment, h]
    exact framed_of_exact x ts _ sg _ w _ [_] rfl rfl rfl rfl
  · obtain ⟨pre, hrel, hf, hres⟩ := resolve_thread_info_some x info g w
    simp only [texture_handle, hres, texturesys] at h ⊢
    simp only [h]
    refine framed_of_exact x ts _ (some g) _ w _ (pre ++ [_]) (List.append_assoc _ _ _)
      ?_ ?_ h.symm
    · simp [relayed_append, hrel, relayed]
    · simp [fetches_append, hf, fetches]
  · obtain ⟨pre, hrel, hf, hres⟩ := resolve_thread_info_some x info g w
    simp only [texture3d_handle, hres, texturesys] at h ⊢
    simp only [h]
    refine framed_of_exact x ts _ (some g) _ w _ (pre ++ [_]) (List.append_assoc _ _ _)
      ?_ ?_ h.symm
    · simp [relayed_append, hrel, relayed]
    · simp [fetches_append, hf, fetches]
  · obtain ⟨pre, hrel, hf, hres⟩ := resolve_thread_info_some x info g w
    simp only [environment_handle, hres, texturesys] at h ⊢
    simp only [h]
    refine framed_of_exact x ts _ (some g) _ w _ (pre ++ [_]) (List.append_assoc _ _ _)
      ?_ ?_ h.symm
    · simp [relayed_append, hrel, relayed]
    · simp [fetches_append, hf, fetches]
  · simp only [get_texture_info, h]
    exact framed_of_exact x ts _ sg _ w _ [_] rfl rfl rfl rfl
  · have hge : v ≥ 10602 := hv
    simp only [get_texture_info_handle, hge, if_true, h]
    exact framed_of_exact x ts _ sg _ w _ [_] rfl rfl rfl rfl
  · have hlt : ¬ v ≥ 10602 := by omega
    refine ⟨w, by simp [get_texture_info_handle, hlt], rfl, ?_, ?_⟩
    · rw [added_self]; rfl
    · rw [added_self]; rfl

/-- C10 at concrete inputs: an engine that accepts every lookup, asked by handle
and by name with a shading point of context 9, and asked by handle 5 with
scratch 3 and no shading point, where the call does not return although the
engine accepts the lookup. -/
theorem success_path_frame_witness :
    texturesys (RendererServices (fixture true "") none (World.start "")) = some 1 ∧
    framed true (RendererServices (fixture true "") none (World.start ""))
      (texture_handle (fixture true "") 5 none () (some ⟨9⟩)
        (RendererServices (fixture true "") none (World.start ""))) ∧
    framed true (RendererServices (fixture true "") none (World.start ""))
      (get_texture_info (fixture true "") (some ⟨9⟩) "grid.tx" 0 "channels" ()
        (RendererServices (fixture true "") none (World.start ""))) ∧
    ((fixture true "").texture_handle 1 5 (some 3) () "").1 = true ∧
    texture_handle (fixture true "") 5 (some 3) () none
        (RendererServices (fixture true "") none (World.start ""))
      = .error .nullDeref ∧
    ¬ framed true (RendererServices (fixture true "") none (World.start ""))
      (texture_handle (fixture true "") 5 (some 3) () none
        (RendererServices (fixture true "") none (World.start ""))) :=
  ⟨rfl,
    (success_path_frame (fixture true "")
      (RendererServices (fixture true "") none (World.start "")) 1 rfl "grid.tx" 5 none ()
      (some ⟨9⟩) ⟨9⟩ 0 "channels" 10602).2.2.2.1,
    (success_path_frame (fixture true "")
      (RendererServices (fixture true "") none (World.start "")) 1 rfl "grid.tx" 5 none ()
      (some ⟨9⟩) ⟨9⟩ 0 "channels" 10602).2.2.2.2.2.2.1,
    rfl,
    (success_path_frame (fixture true "")
      (RendererServices (fixture true "") none (World.start "")) 1 rfl "grid.tx" 5
      (some 3) () none ⟨9⟩ 0 "channels" 10602).2.2.2.2.2.2.2.2.2.1.1,
    (success_path_frame (fixture true "")
      (RendererServices (fixture true "") none (World.start "")) 1 rfl "grid.tx" 5
      (some 3) () none ⟨9⟩ 0 "channels" 10602).2.2.2.2.2.2.2.2.2.1.2 true⟩

/-! ## Transforms: theorems -/

theorem invert_if_ok_mirrors {σ M F : Type} (rs : Renderer σ M F) (fwd : (Bool × M) × σ)
    (w : World σ) : mirrors_forward rs fwd w (invert_if_ok rs fwd w) := by
  obtain ⟨⟨ok, m⟩, s⟩ := fwd
  cases ok with
  | false =>
    refine ⟨rfl, ?_, rfl⟩
    have ha := added_of_trace_eq w
      (invert_if_ok rs ((false, m), s) w).2 [Event.get_matrix false] rfl
    rw [ha]
    rfl
  | true =>
    refine ⟨rfl, ?_, rfl⟩
    have ha := added_of_trace_eq w
      (invert_if_ok rs ((true, m), s) w).2 [Event.get_matrix true, Event.invert]
      (by simp [invert_if_ok])
    rw [ha]
    rfl

/-- C4: each of the four `get_inverse_matrix` variants, for every input, returns
the boolean of its forward `get_matrix`; when that is `false` nothing is inverted
and the matrix is as the forward lookup left it; when it is `true` the matrix is
inverted exactly once, whatever the inversion yields for it. -/
theorem inverse_mirrors_forward {σ M F : Type} (rs : Renderer σ M F)
    (sg : Option ShaderGlobals) (result : M) (xform : TransformationPtr)
    (to_ : ustring) (time : F) (w : World σ) :
    mirrors_forward rs (rs.get_matrix_xform_time sg result xform time w.ext) w
      (get_inverse_matrix_xform_time rs sg result xform time w) ∧
    mirrors_forward rs (rs.get_matrix_xform sg result xform w.ext) w
      (get_inverse_matrix_xform rs sg result xform w) ∧
    mirrors_forward rs (rs.get_matrix_named_time sg result to_ time w.ext) w
      (get_inverse_matrix_named_time rs sg result to_ time w) ∧
    mirrors_forward rs (rs.get_matrix_named sg result to_ w.ext) w
      (get_inverse_matrix_named rs sg result to_ w) :=
  ⟨invert_if_ok_mirrors rs _ w, invert_if_ok_mirrors rs _ w,
    invert_if_ok_mirrors rs _ w, invert_if_ok_mirrors rs _ w⟩

/-- C4 at concrete inputs: a named coordinate system at time 3/2 whose forward
lookup fails, and one whose forward lookup succeeds with the singular matrix 0. -/
theorem inverse_mirrors_forward_witness :
    ((get_inverse_matrix_named_time (fixture_renderer false 2) none 5 "shader" (3 / 2)
        (World.start "")).1.1 = false ∧
      inversions (added (World.start "")
        (get_inverse_matrix_named_time (fixture_renderer false 2) none 5 "shader" (3 / 2)
          (World.start "")).2) = 0) ∧
    ((get_inverse_matrix_named_time (fixture_renderer true 0) none 5 "shader" (3 / 2)
        (World.start "")).1.1 = true ∧
      inversions (added (World.start "")
        (get_inverse_matrix_named_time (fixture_renderer true 0) none 5 "shader" (3 / 2)
          (World.start "")).2) = 1) :=
  ⟨⟨(inverse_mirrors_forward (fixture_renderer false 2) none 5 0 "shader" (3 / 2)
      (World.start "")).2.2.1.1,
    (inverse_mirrors_forward (fixture_renderer false 2) none 5 0 "shader" (3 / 2)
      (World.start "")).2.2.1.2.1⟩,
   ⟨(inverse_mirrors_forward (fixture_renderer true 0) none 5 0 "shader" (3 / 2)
      (World.start "")).2.2.1.1,
    (inverse_mirrors_forward (fixture_renderer true 0) none 5 0 "shader" (3 / 2)
      (World.start "")).2.2.1.2.1⟩⟩

end OSL
